import Mathlib

/-!
# Verification of the VSON WP6810 BLE air-quality monitor protocol engine

A shallow embedding of `monitor.py`: the frame decoders, the notification
handler (router), the handshake sequencer, the listening loop and the
reconnection supervisor, together with theorems settling the specified
properties.

Bytes are modelled as natural numbers (callers supply values `< 256`, as
Python `bytes` guarantees); byte strings are `List Nat`.  Python floats are
modelled exactly: a `Float64` value is represented by the rational it denotes
and each arithmetic operation rounds its exact rational result to the nearest
representable `Float64` value (ties to even), which is IEEE-754 binary64
semantics.  All float values arising in this program are `0` or lie in
`[1, 2^60)`, far from the subnormal and overflow ranges, so the rounding
function below is implemented (and only claimed) for that domain.
-/

set_option maxRecDepth 100000

/-! ## Exact model of IEEE-754 binary64 rounding (round to nearest, ties to even) -/

/-- Floor of a nonnegative rational as an integer (`q.num / q.den` is
truncating division, which agrees with floor for `q ≥ 0`). -/
def qfloor (q : ℚ) : ℤ := q.num / (q.den : ℤ)

/-- Round a nonnegative rational to the nearest integer, ties to even. -/
def rnearestEven (q : ℚ) : ℤ :=
  let n := qfloor q
  let f := q - (n : ℚ)
  if f < 1/2 then n
  else if (1:ℚ)/2 < f then n + 1
  else if n % 2 = 0 then n else n + 1

/-- Fuel-driven floor-log2 for rationals `≥ 1` (returns the accumulator once
the value drops below 2; fuel 1100 covers the whole binary64 range). -/
def ilog2Go : Nat → ℚ → Nat → Nat
  | 0, _, acc => acc
  | fuel + 1, q, acc => if q < 2 then acc else ilog2Go fuel (q / 2) (acc + 1)

/-- Floor-log2 of a rational `≥ 1`. -/
def ilog2 (q : ℚ) : Nat := ilog2Go 1100 q 0

/-- Round a rational to the nearest IEEE-754 binary64 value (ties to even),
returned as the exact rational that the resulting double denotes.  Valid on
the domain `{0} ∪ [1, 2^1024)` (no subnormals, no negative values, no
overflow), which covers every float computed by this program. -/
def roundB64 (q : ℚ) : ℚ :=
  if q ≤ 0 then 0
  else
    let e := ilog2 q
    let s : ℚ := 2 ^ (52 : Nat) / 2 ^ e
    ((rnearestEven (q * s) : ℤ) : ℚ) / s

/-- Python's `round(x, 2)` on a (nonnegative) float: round the exact value of
`x` to two decimal places (nearest, ties to even — ties cannot occur for
binary floats at two decimal places) and round the result back to binary64. -/
def pyRound2 (x : ℚ) : ℚ := roundB64 (((rnearestEven (x * 100) : ℤ) : ℚ) / 100)

/-! ## Protocol constants (`monitor.py`, "Protocol Constants") -/

def META_FLAG_TIME_CONFIRMATION : Nat := 0x01
def META_FLAG_SHORT_RESPONSE : Nat := 0x02
def PACKET_SIZE_META_SHORT : Nat := 2
def PACKET_SIZE_META_LONG : Nat := 8
def CMD_START : List Nat := [0x03]
def PACKET_SIZE_DATA : Nat := 20
def PACKET_SIZE_META : Nat := 8
def PARTICLE_MULTIPLIER_BASE : Nat := 256
def PARTICLE_MULTIPLIER_LSB : Nat := 6250
/-- The Python float literal `3.53`: the binary64 value nearest to 353/100. -/
def PARTICLE_MULTIPLIER_CORRECTION : ℚ := roundB64 (353 / 100)
def PARTICLE_DIVISOR : ℚ := 1000

/-! ## Protocol utilities -/

/-- Embedding of `u16_le` from `monitor.py`: `buf[off] | (buf[off + 1] << 8)`.
(Out-of-range indices cannot occur at the call sites, which all guard the
buffer length first; `getD _ 0` stands for Python's checked indexing.) -/
def u16_le (buf : List Nat) (off : Nat) : Nat :=
  buf.getD off 0 ||| (buf.getD (off + 1) 0 <<< 8)

/-! ## Frame decoders -/

/-- Result of `decode_header_datetime`. -/
structure HeaderDT where
  year_offset : Nat
  year_2000 : Nat
  month : Nat
  day : Nat
  hour : Nat
  minute : Nat
  second : Nat
deriving DecidableEq, Repr

/-- Embedding of `decode_header_datetime` from `monitor.py`. -/
def decode_header_datetime (header : List Nat) : Option HeaderDT :=
  if header.length ≠ 6 then none
  else some
    { year_offset := header.getD 0 0
      year_2000 := 2000 + header.getD 0 0
      month := header.getD 1 0
      day := header.getD 2 0
      hour := header.getD 3 0
      minute := header.getD 4 0
      second := header.getD 5 0 }

/-- Result of `decode_data_frame` (the decoded-DATA dictionary). -/
structure DataFrame where
  header : Option HeaderDT
  pm25 : Nat
  pm1 : Nat
  pm10 : Nat
  unknown1 : Nat
  unused4 : List Nat
  counter : Nat
  flag : Nat
  flag_meaning : String
  particles : ℚ
  particles_msb : Nat
  particles_lsb : Nat
deriving DecidableEq, Repr

/-- Embedding of `decode_data_frame` from `monitor.py`.  The particle count follows the
Python expression `msb * 256 + (lsb * 6250 * 3.53) / 1000.0`: the integer
products are exact, the multiplication by the float `3.53`, the division and
the final addition each round to binary64. -/
def decode_data_frame (payload : List Nat) : Option DataFrame :=
  if payload.length ≠ PACKET_SIZE_DATA then none
  else
    let header := payload.take 6
    let header_decoded := decode_header_datetime header
    let pm25 := u16_le payload 6
    let pm1 := u16_le payload 8
    let pm10 := u16_le payload 10
    let unknown1 := u16_le payload 12
    let unused4 := (payload.drop 14).take 4
    let counter := payload.getD 18 0
    let flag := payload.getD 19 0
    let msb := (pm25 >>> 8) &&& 0xFF
    let lsb := pm25 &&& 0xFF
    let particles :=
      roundB64 (((msb * PARTICLE_MULTIPLIER_BASE : Nat) : ℚ) +
        roundB64 (roundB64 (((lsb * PARTICLE_MULTIPLIER_LSB : Nat) : ℚ) *
            PARTICLE_MULTIPLIER_CORRECTION) / PARTICLE_DIVISOR))
    some
      { header := header_decoded
        pm25 := pm25
        pm1 := pm1
        pm10 := pm10
        unknown1 := unknown1
        unused4 := unused4
        counter := counter
        flag := flag
        flag_meaning := if flag = 1 then "current" else "history"
        particles := particles
        particles_msb := msb
        particles_lsb := lsb }

/-- Result of `decode_status_battery`. -/
structure StatusInfo where
  battery_raw : Nat
  battery_percent : Nat
deriving DecidableEq, Repr

/-- Embedding of `decode_status_battery` from `monitor.py`. -/
def decode_status_battery (payload : List Nat) : Option StatusInfo :=
  if payload.length < 1 then none
  else some { battery_raw := payload.getD 0 0, battery_percent := payload.getD 0 0 }

/-- Result of `decode_meta_time_mode`. -/
structure MetaInfo where
  flag : Nat
  year : Nat
  month : Nat
  day : Nat
  hour : Nat
  minute : Nat
  second : Nat
  mode : Nat
deriving DecidableEq, Repr

/-- Embedding of `decode_meta_time_mode` from `monitor.py` (checks only the length; the
flag byte is stored, not inspected). -/
def decode_meta_time_mode (payload : List Nat) : Option MetaInfo :=
  if payload.length ≠ PACKET_SIZE_META then none
  else some
    { flag := payload.getD 0 0
      year := 2000 + payload.getD 1 0
      month := payload.getD 2 0
      day := payload.getD 3 0
      hour := payload.getD 4 0
      minute := payload.getD 5 0
      second := payload.getD 6 0
      mode := payload.getD 7 0 }

/-! ## Configuration and runtime state (the fields the protocol engine reads) -/

/-- The relevant fields of the global `Config` object. -/
structure Config where
  output_format : String := "text"
  include_history : Bool := false
  mqtt_enabled : Bool := false
  response_timeout : Nat := 300
deriving DecidableEq, Repr

/-- Embedding of `SensorState` from `monitor.py`: a module-level global, constructed once
per process (`latest_battery = 0`, `last_data_time = None`). -/
structure SensorState where
  latest_battery : Nat := 0
  last_data_time : Option Nat := none
deriving DecidableEq, Repr

/-- The four notification channel identities plus `unknown` for a
notification whose UUID matches none of the four constants (the handler's
`if uuid_lower == ...` chain then falls through and returns). -/
inductive Channel
  | status
  | short
  | meta
  | data
  | unknown
deriving DecidableEq, Repr

/-! ## META branch of the notification handler -/

/-- Outcome of the META branch of `notification_handler` (lines 683-733):
either a decoded time confirmation (flag 0x01, 8 bytes), a short response
(flag 0x02, 2 bytes, payload not decoded), or a decode failure (empty frame,
length mismatch for flags 0x01/0x02, or an unknown flag), which is logged
and dropped. -/
inductive MetaResult
  | timeConfirmed (info : MetaInfo)
  | shortResponse
  | decodeFailure
deriving DecidableEq, Repr

/-- The META-channel classification performed by `notification_handler`. -/
def meta_route (b : List Nat) : MetaResult :=
  if b.length = 0 then .decodeFailure
  else
    let flag := b.getD 0 0
    if flag = META_FLAG_TIME_CONFIRMATION then
      if b.length ≠ PACKET_SIZE_META_LONG then .decodeFailure
      else
        match decode_meta_time_mode b with
        | none => .decodeFailure
        | some info => .timeConfirmed info
    else if flag = META_FLAG_SHORT_RESPONSE then
      if b.length ≠ PACKET_SIZE_META_SHORT then .decodeFailure
      else .shortResponse
    else .decodeFailure

/-! ## The notification handler -/

/-- Observable output of one `notification_handler` call.  `emitJson` models
`output_json_data` (timestamp from the frame header, particle count rounded
to two decimals by Python's `round`, battery merged from the shared state);
`emitText` models `output_text_data` (no battery field); `mqttPublish`
models `publish_mqtt`'s payload; `logOnly` stands for the paths that only
write a log line (warnings on decode failures, battery/META info lines,
SHORT debug lines). -/
inductive HandlerOut
  | logOnly
  | emitText (pm1 pm25 pm10 : Nat) (particles : ℚ) (flag_meaning : String)
  | emitJson (ts : Option HeaderDT) (pm1 pm25 pm10 : Nat) (particles : ℚ) (battery : Nat)
  | mqttPublish (t : Nat) (pm1 pm25 pm10 : Nat) (particles : ℚ) (battery : Nat)
      (flag_meaning : String)
deriving DecidableEq, Repr

/-- Does this output emit a reading (console or MQTT), as opposed to only
logging? -/
def isEmit : HandlerOut → Bool
  | .logOnly => false
  | _ => true

/-- Embedding of `notification_handler` from `monitor.py`, as a pure transition function:
given the configuration, the current time `t` (`time.time()`), the channel
identity of the notification and its bytes, it updates the sensor state and
produces the observable outputs.  Mirrors the source: the liveness clock
`last_data_time` is set unconditionally before any decoding or dispatch; a
DATA frame with `flag == 0` is skipped unless `include_history`; the META
branch only logs (its classification logic is `meta_route` above); every
decode-failure path logs and returns normally — no path raises. -/
def notification_handler (cfg : Config) (t : Nat) (ch : Channel) (b : List Nat)
    (st : SensorState) : SensorState × List HandlerOut :=
  let st := { st with last_data_time := some t }
  match ch with
  | .data =>
    match decode_data_frame b with
    | none => (st, [.logOnly])
    | some d =>
      if d.flag = 0 ∧ cfg.include_history = false then (st, [.logOnly])
      else
        let console :=
          if cfg.output_format = "json" then
            HandlerOut.emitJson d.header d.pm1 d.pm25 d.pm10 (pyRound2 d.particles)
              st.latest_battery
          else
            HandlerOut.emitText d.pm1 d.pm25 d.pm10 d.particles d.flag_meaning
        let mq :=
          if cfg.mqtt_enabled then
            [HandlerOut.mqttPublish t d.pm1 d.pm25 d.pm10 (pyRound2 d.particles)
              st.latest_battery d.flag_meaning]
          else []
        (st, console :: mq)
  | .status =>
    match decode_status_battery b with
    | none => (st, [.logOnly])
    | some d => ({ st with latest_battery := d.battery_percent }, [.logOnly])
  | .meta =>
    match meta_route b with
    | _ => (st, [.logOnly])
  | .short => (st, [.logOnly])
  | .unknown => (st, [])

/-! ## Process-level trace semantics

`monitor.py` keeps `sensor_state` as a module-level global.  Each successful
connection (`monitor_device_connection`, line 884) resets only
`last_data_time`; `latest_battery` is **not** touched on a new connection.
`runTrace` runs a sequence of such events against the shared state. -/

/-- One process-level event: a new connection entering its listening phase
(which sets `last_data_time := time.time()`), or a notification. -/
inductive SessionEv
  | connect (t : Nat)
  | notify (t : Nat) (ch : Channel) (b : List Nat)
deriving DecidableEq, Repr

/-- Run a list of process-level events against the shared sensor state,
collecting all handler outputs in order. -/
def runTrace (cfg : Config) : SensorState → List SessionEv → SensorState × List HandlerOut
  | st, [] => (st, [])
  | st, .connect t :: rest => runTrace cfg { st with last_data_time := some t } rest
  | st, .notify t ch b :: rest =>
    let p := notification_handler cfg t ch b st
    let q := runTrace cfg p.1 rest
    (q.1, p.2 ++ q.2)

/-- Specification-side description of the battery value after a trace: the
first byte of the last valid (length ≥ 1) STATUS frame in the trace, or the
starting value if there is none.  Connection events are transparent. -/
def spec_last_status_battery (init : Nat) : List SessionEv → Nat
  | [] => init
  | .connect _ :: rest => spec_last_status_battery init rest
  | .notify _ .status b :: rest =>
    spec_last_status_battery (if b.length < 1 then init else b.getD 0 0) rest
  | .notify _ _ _ :: rest => spec_last_status_battery init rest

/-! ## Handshake sequencer (`build_auth_key`, `build_time_sync`, device init) -/

/-- The two writable GATT targets: `UUID_KEY` (`fff1`) and `UUID_CMD`
(`fff3`). -/
inductive WriteTarget
  | key
  | cmd
deriving DecidableEq, Repr

/-- One step of the initialization sequence: enable notifications on a
channel, or write a byte string (with `response := true` meaning the write
requests delivery confirmation from the transport). -/
inductive HsAction
  | startNotify (ch : Channel)
  | writeGatt (target : WriteTarget) (bytes : List Nat) (response : Bool)
deriving DecidableEq, Repr

/-- The six ASCII digits of `f"{n:06d}"` for `n < 1000000` (most significant
first; `48` is the ASCII code of `0`). -/
def asciiDigits6 (n : Nat) : List Nat :=
  [48 + n / 100000 % 10, 48 + n / 10000 % 10, 48 + n / 1000 % 10,
   48 + n / 100 % 10, 48 + n / 10 % 10, 48 + n % 10]

/-- Embedding of `build_auth_key` from `monitor.py`, with the session nonce
(`random.randint(0, 999999)`) passed as a parameter:
`b"\x00\x01" + ascii_digits + b"\x00" * 10`. -/
def build_auth_key (nonce : Nat) : List Nat :=
  [0x00, 0x01] ++ asciiDigits6 nonce ++ List.replicate 10 0

/-- A wall-clock datetime as `datetime.now()` delivers it (the year is an
unbounded integer; the other fields are the usual calendar fields). -/
structure PyDateTime where
  year : Int
  month : Nat
  day : Nat
  hour : Nat
  minute : Nat
  second : Nat
deriving DecidableEq, Repr

/-- Embedding of `build_time_sync` from `monitor.py`, with `datetime.now()` passed as a
parameter: six datetime bytes (`year - 2000`, replaced by `0` when outside
`[0, 255]`, then month/day/hour/minute/second, each masked with `0xFF`)
followed by the constant tail `00 06 40 00 1e`. -/
def build_time_sync (now : PyDateTime) : List Nat :=
  let year_offset : Int := now.year - 2000
  let year_offset : Int := if 0 ≤ year_offset ∧ year_offset ≤ 255 then year_offset else 0
  [year_offset.toNat % 256, now.month % 256, now.day % 256,
   now.hour % 256, now.minute % 256, now.second % 256] ++
  [0x00, 0x06, 0x40, 0x00, 0x1e]

/-- Embedding of `initialize_device` from `monitor.py`: the exact sequence of transport
actions of one handshake (notifications on all four channels first, then the
three confirmed writes: authentication key, `CMD_START`, time sync). -/
def initialize_device (nonce : Nat) (now : PyDateTime) : List HsAction :=
  [.startNotify .status,
   .startNotify .short,
   .startNotify .meta,
   .startNotify .data,
   .writeGatt .key (build_auth_key nonce) true,
   .writeGatt .cmd CMD_START true,
   .writeGatt .key (build_time_sync now) true]

/-! ## Listening loop, session outcome, and the reconnection supervisor -/

/-- How the `while True` listening loop of `monitor_device_connection`
(lines 886-904) exits: the MQTT-fatal check fires, or the silence check
`time.time() - last_data_time > response_timeout` fires. -/
inductive LoopExit
  | fatalBreak
  | silenceBreak
deriving DecidableEq, Repr

/-- Observation for one iteration of the listening loop: whether
`config.mqtt_fatal_error` is set when the iteration starts, and whether a
notification arrives during the 1-second sleep that ends the iteration. -/
structure Tick where
  fatal : Bool
  frame : Bool
deriving DecidableEq, Repr

/-- The listening loop of `monitor_device_connection`: at time `now`, with
the liveness clock at `last`, it first checks the MQTT-fatal flag, then the
silence condition `now - last > timeout`, then sleeps one second (during
which an arriving notification resets the liveness clock to the current
time).  Returns `none` when the supplied observations run out with the loop
still running. -/
def listening_loop (timeout : Nat) : Nat → Nat → List Tick → Option LoopExit
  | _, _, [] => none
  | now, last, tk :: rest =>
    if tk.fatal then some .fatalBreak
    else if now - last > timeout then some .silenceBreak
    else listening_loop timeout (now + 1) (if tk.frame then now else last) rest

/-- The Python exceptions that can escape `monitor_device_connection` and are
distinguished by `monitor_device`'s handlers. -/
inductive PyExc
  | cancelled
  | keyboard
  | timeoutErr
  | bleakErr
  | otherErr
deriving DecidableEq, Repr

/-- What the body of `monitor_device_connection` does once past the
MQTT-fatal entry guard: return normally because `client.is_connected` is
false, return normally because the listening loop broke (silence timeout or
MQTT-fatal detected), or raise. -/
inductive BodyResult
  | connectFailed
  | loopBreak (e : LoopExit)
  | raised (e : PyExc)
deriving DecidableEq, Repr

/-- How one call of `monitor_device_connection` completes, as seen by
`monitor_device`. -/
inductive SessOutcome
  | normalExit
  | procExit
  | raised (e : PyExc)
deriving DecidableEq, Repr

/-- Embedding of `monitor_device_connection` from `monitor.py`, abstracted to its control
flow: if `config.mqtt_fatal_error` is set on entry, `sys.exit(1)` fires
(`SystemExit`, caught by none of `monitor_device`'s handlers); otherwise a
normal return (connect failure or loop break) or the raised exception
propagates. -/
def monitor_device_connection (fatalAtEntry : Bool) (body : BodyResult) : SessOutcome :=
  if fatalAtEntry then .procExit
  else
    match body with
    | .connectFailed => .normalExit
    | .loopBreak _ => .normalExit
    | .raised e => .raised e

/-- The fixed inter-attempt delay of `monitor_device` (`retry_delay = 5`). -/
def retry_delay : Nat := 5

/-- Events observable from the supervisor loop `monitor_device`: a call into
`monitor_device_connection` begins, the fixed retry sleep runs, or the loop
terminates (an uncaught exception — `SystemExit`, `KeyboardInterrupt`,
`CancelledError` — propagates out of the `while True`). -/
inductive SupEv
  | sessionStart
  | retrySleep (d : Nat)
  | terminated
deriving DecidableEq, Repr

/-- Input describing one prospective session for the supervisor model: what
the session body would do if it runs, and whether the MQTT-fatal flag gets
set during it (the callbacks set it asynchronously; the next session's entry
guard then sees it). -/
structure SessSpec where
  body : BodyResult
  setsFatal : Bool
deriving DecidableEq, Repr

/-- Embedding of `monitor_device` from `monitor.py`: the unbounded retry loop, run on a
finite prefix of prospective sessions.  Normal returns and the caught
exceptions (`TimeoutError`, `BleakError`, `OSError`/`RuntimeError`/
`ValueError`) lead to the fixed 5-second sleep and the next iteration;
`KeyboardInterrupt` and `CancelledError` re-raise, and the entry guard's
`SystemExit` propagates uncaught — all three end the loop. -/
def monitor_device : Bool → List SessSpec → List SupEv
  | _, [] => []
  | fatal, s :: rest =>
    SupEv.sessionStart ::
      match monitor_device_connection fatal s.body with
      | .procExit => [SupEv.terminated]
      | .raised .cancelled => [SupEv.terminated]
      | .raised .keyboard => [SupEv.terminated]
      | .normalExit => SupEv.retrySleep retry_delay :: monitor_device (fatal || s.setsFatal) rest
      | .raised .timeoutErr => SupEv.retrySleep retry_delay :: monitor_device (fatal || s.setsFatal) rest
      | .raised .bleakErr => SupEv.retrySleep retry_delay :: monitor_device (fatal || s.setsFatal) rest
      | .raised .otherErr => SupEv.retrySleep retry_delay :: monitor_device (fatal || s.setsFatal) rest

/-- Count the session starts in a supervisor trace. -/
def countStarts (evs : List SupEv) : Nat :=
  evs.countP fun e =>
    match e with
    | SupEv.sessionStart => true
    | _ => false

/-! ## Helper lemmas -/

theorem byte_getD_lt {b : List Nat} (hb : ∀ x ∈ b, x < 256) {i : Nat}
    (hi : i < b.length) : b.getD i 0 < 256 := by
  have h : b.getD i 0 = b[i] := by
    simp [List.getD_eq_getElem?_getD, List.getElem?_eq_getElem hi]
  rw [h]
  exact hb _ (List.getElem_mem hi)

/-- A byte or-ed with a shifted second byte is the little-endian 16-bit
value. -/
theorem lor_shiftLeft_eq_add {a : Nat} (c : Nat) (ha : a < 256) :
    a ||| (c <<< 8) = a + 256 * c := by
  rw [Nat.shiftLeft_eq, Nat.or_comm, Nat.mul_comm c (2 ^ 8),
    ← Nat.mul_add_lt_is_or ha c]
  omega

theorem u16_le_eq_add {b : List Nat} (hb : ∀ x ∈ b, x < 256) {off : Nat}
    (hoff : off < b.length) :
    u16_le b off = b.getD off 0 + 256 * b.getD (off + 1) 0 :=
  lor_shiftLeft_eq_add _ (byte_getD_lt hb hoff)

theorem shiftRight8_eq_div (x : Nat) : x >>> 8 = x / 256 := by
  rw [Nat.shiftRight_eq_div_pow]

theorem and255_eq_mod (x : Nat) : x &&& 0xFF = x % 256 := by
  have h := Nat.and_pow_two_sub_one_eq_mod x 8
  norm_num at h
  exact h

/-- Unfolding of `decode_data_frame` on a 20-byte buffer. -/
theorem decode_data_frame_eq_of_len {b : List Nat} (hlen : b.length = 20) :
    decode_data_frame b = some
      { header := decode_header_datetime (b.take 6)
        pm25 := u16_le b 6
        pm1 := u16_le b 8
        pm10 := u16_le b 10
        unknown1 := u16_le b 12
        unused4 := (b.drop 14).take 4
        counter := b.getD 18 0
        flag := b.getD 19 0
        flag_meaning := if b.getD 19 0 = 1 then "current" else "history"
        particles :=
          roundB64 (((((u16_le b 6 >>> 8) &&& 0xFF) * PARTICLE_MULTIPLIER_BASE : Nat) : ℚ) +
            roundB64 (roundB64 ((((u16_le b 6 &&& 0xFF) * PARTICLE_MULTIPLIER_LSB : Nat) : ℚ) *
                PARTICLE_MULTIPLIER_CORRECTION) / PARTICLE_DIVISOR))
        particles_msb := (u16_le b 6 >>> 8) &&& 0xFF
        particles_lsb := u16_le b 6 &&& 0xFF } := by
  simp only [decode_data_frame, PACKET_SIZE_DATA]
  rw [if_neg (by omega)]

/-! ## C3 — DATA decoder: length guard and little-endian fields -/

/-- C3: the DATA decoder returns `none` (no reading at all) for every buffer
whose length is not exactly 20; and for every 20-byte buffer (of bytes) it
returns a reading whose pm2.5, pm1 and pm10 fields are the little-endian
unsigned 16-bit values at offsets 6-7, 8-9 and 10-11, with the record
counter equal to byte 18. -/
theorem C3_data_decode :
    (∀ b : List Nat, b.length ≠ 20 → decode_data_frame b = none) ∧
    (∀ b : List Nat, b.length = 20 → (∀ x ∈ b, x < 256) →
      ∃ d, decode_data_frame b = some d ∧
        d.pm25 = b.getD 6 0 + 256 * b.getD 7 0 ∧
        d.pm1 = b.getD 8 0 + 256 * b.getD 9 0 ∧
        d.pm10 = b.getD 10 0 + 256 * b.getD 11 0 ∧
        d.counter = b.getD 18 0) := by
  constructor
  · intro b hb
    simp [decode_data_frame, PACKET_SIZE_DATA, hb]
  · intro b hlen hbytes
    refine ⟨_, decode_data_frame_eq_of_len hlen, ?_, ?_, ?_, rfl⟩
    · exact u16_le_eq_add hbytes (by omega)
    · exact u16_le_eq_add hbytes (by omega)
    · exact u16_le_eq_add hbytes (by omega)

theorem C3_witness :
    decode_data_frame [1, 2, 3] = none ∧
    ∃ d, decode_data_frame [0,0,0,0,0,0, 5,1, 7,0, 9,0, 0,0,0,0,0,0, 42, 1] = some d ∧
      d.pm25 = [0,0,0,0,0,0, 5,1, 7,0, 9,0, 0,0,0,0,0,0, 42, 1].getD 6 0 +
        256 * [0,0,0,0,0,0, 5,1, 7,0, 9,0, 0,0,0,0,0,0, 42, 1].getD 7 0 ∧
      d.pm1 = [0,0,0,0,0,0, 5,1, 7,0, 9,0, 0,0,0,0,0,0, 42, 1].getD 8 0 +
        256 * [0,0,0,0,0,0, 5,1, 7,0, 9,0, 0,0,0,0,0,0, 42, 1].getD 9 0 ∧
      d.pm10 = [0,0,0,0,0,0, 5,1, 7,0, 9,0, 0,0,0,0,0,0, 42, 1].getD 10 0 +
        256 * [0,0,0,0,0,0, 5,1, 7,0, 9,0, 0,0,0,0,0,0, 42, 1].getD 11 0 ∧
      d.counter = [0,0,0,0,0,0, 5,1, 7,0, 9,0, 0,0,0,0,0,0, 42, 1].getD 18 0 :=
  ⟨C3_data_decode.1 [1, 2, 3] (by decide),
   C3_data_decode.2 _ (by decide) (by decide)⟩

/-! ## C4 — the particle-count formula -/

/-- The particle-count formula exactly as specified: `msb*256 +
(lsb*6250*3.53)/1000.0`, computed in binary64 floating point with the
division performed last (the integer products are exact; `3.53` denotes the
binary64 value nearest to 353/100; each float operation rounds). -/
def spec_particle_count (msb lsb : Nat) : ℚ :=
  roundB64 (((msb * 256 : Nat) : ℚ) +
    roundB64 (roundB64 (((lsb * 6250 : Nat) : ℚ) * roundB64 (353 / 100)) / 1000))

/-- C4: for every 20-byte DATA buffer the decoded particle count equals the
specified formula applied to `msb = pm2.5 >> 8` and `lsb = pm2.5 & 0xFF`;
the computation is a pure function (hence deterministic); and at
pm2.5 = 0x0105 (so msb = 1, lsb = 5) the result is exactly 366.3125
(= 5861/16). -/
theorem C4_particle_formula :
    (∀ b : List Nat, b.length = 20 → (∀ x ∈ b, x < 256) →
      ∃ d, decode_data_frame b = some d ∧
        d.particles_msb = d.pm25 / 256 ∧
        d.particles_lsb = d.pm25 % 256 ∧
        d.particles = spec_particle_count d.particles_msb d.particles_lsb) ∧
    spec_particle_count 1 5 = 5861 / 16 ∧
    (decode_data_frame [0,0,0,0,0,0, 5,1, 0,0, 0,0, 0,0,0,0,0,0, 0,1]).map
        (fun d => (d.pm25, d.particles_msb, d.particles_lsb, d.particles)) =
      some (261, 1, 5, 5861 / 16) := by
  refine ⟨?_, by with_unfolding_all rfl, by with_unfolding_all rfl⟩
  intro b hlen hbytes
  have h6 : b.getD 6 0 < 256 := byte_getD_lt hbytes (by omega)
  have h7 : b.getD 7 0 < 256 := byte_getD_lt hbytes (by omega)
  have hu : u16_le b 6 = b.getD 6 0 + 256 * b.getD 7 0 := u16_le_eq_add hbytes (by omega)
  refine ⟨_, decode_data_frame_eq_of_len hlen, ?_, ?_, rfl⟩
  · show (u16_le b 6 >>> 8) &&& 0xFF = u16_le b 6 / 256
    rw [shiftRight8_eq_div, and255_eq_mod]
    omega
  · show u16_le b 6 &&& 0xFF = u16_le b 6 % 256
    rw [and255_eq_mod]

theorem C4_witness :
    ∃ d, decode_data_frame [0,0,0,0,0,0, 5,1, 0,0, 0,0, 0,0,0,0,0,0, 0,1] = some d ∧
      d.particles_msb = d.pm25 / 256 ∧
      d.particles_lsb = d.pm25 % 256 ∧
      d.particles = spec_particle_count d.particles_msb d.particles_lsb :=
  C4_particle_formula.1 _ (by decide) (by decide)

/-! ## C10 — the pure META decoder ignores the flag byte -/

/-- C10: `decode_meta_time_mode` does not inspect the flag byte: every
8-byte buffer decodes successfully, with `year = 2000 + byte 1` and the
remaining fields verbatim, whatever byte 0 is; the flag/length policy lives
only in the notification handler's META branch (`meta_route`), which rejects
the same 8-byte buffer when its flag is not 0x01/0x02. -/
theorem C10_meta_decoder_ignores_flag :
    (∀ b : List Nat, b.length = 8 →
      decode_meta_time_mode b = some
        { flag := b.getD 0 0
          year := 2000 + b.getD 1 0
          month := b.getD 2 0
          day := b.getD 3 0
          hour := b.getD 4 0
          minute := b.getD 5 0
          second := b.getD 6 0
          mode := b.getD 7 0 }) ∧
    decode_meta_time_mode [9, 25, 6, 15, 10, 30, 45, 2] = some
      { flag := 9, year := 2025, month := 6, day := 15, hour := 10, minute := 30,
        second := 45, mode := 2 } ∧
    meta_route [9, 25, 6, 15, 10, 30, 45, 2] = .decodeFailure := by
  refine ⟨?_, by decide, by decide⟩
  intro b hlen
  simp only [decode_meta_time_mode, PACKET_SIZE_META]
  rw [if_neg (by omega)]

theorem C10_witness :
    decode_meta_time_mode [7, 1, 2, 3, 4, 5, 6, 8] = some
      { flag := [7, 1, 2, 3, 4, 5, 6, 8].getD 0 0
        year := 2000 + [7, 1, 2, 3, 4, 5, 6, 8].getD 1 0
        month := [7, 1, 2, 3, 4, 5, 6, 8].getD 2 0
        day := [7, 1, 2, 3, 4, 5, 6, 8].getD 3 0
        hour := [7, 1, 2, 3, 4, 5, 6, 8].getD 4 0
        minute := [7, 1, 2, 3, 4, 5, 6, 8].getD 5 0
        second := [7, 1, 2, 3, 4, 5, 6, 8].getD 6 0
        mode := [7, 1, 2, 3, 4, 5, 6, 8].getD 7 0 } :=
  C10_meta_decoder_ignores_flag.1 _ (by decide)

/-! ## C7 — the META frame policy of the notification handler -/

/-- C7: an 8-byte META frame with flag 0x01 decodes to a device-time
confirmation (`year = 2000 + byte 1`, remaining fields verbatim, trailing
work-mode byte) — in particular `[1,25,6,15,10,30,45,2]` gives
2025-06-15 10:30:45, mode 2; a 2-byte frame with flag 0x02 is a short
response with no data payload; and an empty frame, a wrong length for flags
0x01/0x02, or any other flag value is a decode failure (in particular the
1-byte frame `[9]`). -/
theorem C7_meta_frame_policy :
    (∀ b : List Nat, b.length = 8 → b.getD 0 0 = 1 →
      meta_route b = .timeConfirmed
        { flag := 1
          year := 2000 + b.getD 1 0
          month := b.getD 2 0
          day := b.getD 3 0
          hour := b.getD 4 0
          minute := b.getD 5 0
          second := b.getD 6 0
          mode := b.getD 7 0 }) ∧
    meta_route [1, 25, 6, 15, 10, 30, 45, 2] = .timeConfirmed
      { flag := 1, year := 2025, month := 6, day := 15, hour := 10, minute := 30,
        second := 45, mode := 2 } ∧
    meta_route [2, 0] = .shortResponse ∧
    meta_route [9] = .decodeFailure ∧
    meta_route [] = .decodeFailure ∧
    (∀ b : List Nat, b.getD 0 0 ≠ 1 → b.getD 0 0 ≠ 2 → meta_route b = .decodeFailure) ∧
    (∀ b : List Nat, b.getD 0 0 = 1 → b.length ≠ 8 → meta_route b = .decodeFailure) ∧
    (∀ b : List Nat, b.getD 0 0 = 2 → b.length ≠ 2 → meta_route b = .decodeFailure) := by
  refine ⟨?_, by decide, by decide, by decide, by decide, ?_, ?_, ?_⟩
  · intro b hlen hflag
    have h0 : b.length ≠ 0 := by omega
    have hd : decode_meta_time_mode b = some
        { flag := b.getD 0 0
          year := 2000 + b.getD 1 0
          month := b.getD 2 0
          day := b.getD 3 0
          hour := b.getD 4 0
          minute := b.getD 5 0
          second := b.getD 6 0
          mode := b.getD 7 0 } := by
      simp only [decode_meta_time_mode, PACKET_SIZE_META]
      rw [if_neg (by omega)]
    simp only [meta_route, META_FLAG_TIME_CONFIRMATION, META_FLAG_SHORT_RESPONSE,
      PACKET_SIZE_META_LONG]
    rw [if_neg h0, if_pos hflag, if_neg (show ¬b.length ≠ 8 by omega), hd, hflag]
  · intro b h1 h2
    by_cases h0 : b.length = 0
    · simp only [meta_route]
      rw [if_pos h0]
    · simp only [meta_route, META_FLAG_TIME_CONFIRMATION, META_FLAG_SHORT_RESPONSE]
      rw [if_neg h0, if_neg h1, if_neg h2]
  · intro b hflag hlen
    have h0 : b.length ≠ 0 := by
      intro h
      rw [List.length_eq_zero] at h
      subst h
      simp at hflag
    simp only [meta_route, META_FLAG_TIME_CONFIRMATION, PACKET_SIZE_META_LONG]
    rw [if_neg h0, if_pos hflag, if_pos hlen]
  · intro b hflag hlen
    have h0 : b.length ≠ 0 := by
      intro h
      rw [List.length_eq_zero] at h
      subst h
      simp at hflag
    simp only [meta_route, META_FLAG_TIME_CONFIRMATION, META_FLAG_SHORT_RESPONSE,
      PACKET_SIZE_META_SHORT]
    rw [if_neg h0, if_neg (show ¬b.getD 0 0 = 1 by rw [hflag]; decide), if_pos hflag,
      if_pos hlen]

theorem C7_witness :
    meta_route [1, 2, 3, 4, 5, 6, 7, 8] = .timeConfirmed
      { flag := 1
        year := 2000 + [1, 2, 3, 4, 5, 6, 7, 8].getD 1 0
        month := [1, 2, 3, 4, 5, 6, 7, 8].getD 2 0
        day := [1, 2, 3, 4, 5, 6, 7, 8].getD 3 0
        hour := [1, 2, 3, 4, 5, 6, 7, 8].getD 4 0
        minute := [1, 2, 3, 4, 5, 6, 7, 8].getD 5 0
        second := [1, 2, 3, 4, 5, 6, 7, 8].getD 6 0
        mode := [1, 2, 3, 4, 5, 6, 7, 8].getD 7 0 } ∧
    meta_route [3, 3] = .decodeFailure ∧
    meta_route [1, 1] = .decodeFailure ∧
    meta_route [2, 0, 0] = .decodeFailure :=
  ⟨C7_meta_frame_policy.1 _ (by decide) (by decide),
   (C7_meta_frame_policy.2.2.2.2.2.1) _ (by decide) (by decide),
   (C7_meta_frame_policy.2.2.2.2.2.2.1) _ (by decide) (by decide),
   (C7_meta_frame_policy.2.2.2.2.2.2.2) _ (by decide) (by decide)⟩

/-! ## Fixed configurations used in concrete statements -/

/-- Default configuration: text output, historical records excluded. -/
def cfgText : Config :=
  { output_format := "text", include_history := false, mqtt_enabled := false,
    response_timeout := 300 }

/-- JSON-output configuration, historical records excluded. -/
def cfgJson : Config :=
  { output_format := "json", include_history := false, mqtt_enabled := false,
    response_timeout := 300 }

/-- The 20-byte all-zero DATA frame with liveness flag 1 (current). -/
def frameCur : List Nat := [0,0,0,0,0,0, 0,0, 0,0, 0,0, 0,0,0,0,0,0, 0,1]

/-- Its decoded form. -/
def frameCurDecoded : DataFrame :=
  { header := some ⟨0, 2000, 0, 0, 0, 0, 0⟩, pm25 := 0, pm1 := 0, pm10 := 0,
    unknown1 := 0, unused4 := [0, 0, 0, 0], counter := 0, flag := 1,
    flag_meaning := "current", particles := 0, particles_msb := 0, particles_lsb := 0 }

/-! ## C9 — STATUS decoding and battery visibility -/

/-- C9: a STATUS frame of any length ≥ 1 decodes to `battery = byte 0`
verbatim (trailing bytes ignored, no clamping; `[42]` gives 42), the empty
STATUS frame fails to decode, the decoded value overwrites the stored
battery state, and a subsequently emitted reading carries the stored battery
value (until a later STATUS frame overwrites it again, by the same
overwrite equation). -/
theorem C9_status_battery :
    (∀ b : List Nat, 1 ≤ b.length →
      decode_status_battery b =
        some { battery_raw := b.getD 0 0, battery_percent := b.getD 0 0 }) ∧
    decode_status_battery [] = none ∧
    decode_status_battery [42] = some { battery_raw := 42, battery_percent := 42 } ∧
    (∀ (cfg : Config) (t : Nat) (b : List Nat) (st : SensorState), 1 ≤ b.length →
      (notification_handler cfg t .status b st).1.latest_battery = b.getD 0 0) ∧
    (∀ (cfg : Config) (t : Nat) (b : List Nat) (d : DataFrame) (st : SensorState),
      decode_data_frame b = some d →
      ¬(d.flag = 0 ∧ cfg.include_history = false) →
      cfg.output_format = "json" →
      HandlerOut.emitJson d.header d.pm1 d.pm25 d.pm10 (pyRound2 d.particles)
          st.latest_battery ∈ (notification_handler cfg t .data b st).2) := by
  have hdec : ∀ b : List Nat, 1 ≤ b.length →
      decode_status_battery b =
        some { battery_raw := b.getD 0 0, battery_percent := b.getD 0 0 } := by
    intro b hb
    simp only [decode_status_battery]
    rw [if_neg (by omega)]
  refine ⟨hdec, by decide, by decide, ?_, ?_⟩
  · intro cfg t b st hb
    simp only [notification_handler, hdec b hb]
  · intro cfg t b d st hd hkeep hjson
    simp only [notification_handler, hd]
    rw [if_neg hkeep, if_pos hjson]
    exact List.mem_cons_self _ _

theorem C9_witness :
    decode_status_battery [42, 7] =
      some { battery_raw := [42, 7].getD 0 0, battery_percent := [42, 7].getD 0 0 } ∧
    (notification_handler cfgJson 3 .status [42] ⟨0, none⟩).1.latest_battery =
      [42].getD 0 0 ∧
    HandlerOut.emitJson (some ⟨0, 2000, 0, 0, 0, 0, 0⟩) 0 0 0 (pyRound2 0) 42 ∈
      (notification_handler cfgJson 4 .data frameCur ⟨42, some 3⟩).2 :=
  ⟨C9_status_battery.1 [42, 7] (by decide),
   C9_status_battery.2.2.2.1 cfgJson 3 [42] ⟨0, none⟩ (by decide),
   C9_status_battery.2.2.2.2 cfgJson 4 frameCur frameCurDecoded ⟨42, some 3⟩
     (by with_unfolding_all rfl) (by decide) rfl⟩

/-! ## C1 — historical filtering (corrected) -/

/-- Counterexample to C1 as stated: a 20-byte DATA frame whose liveness flag
byte 19 is `2` is historical in the specification's sense (`is_current`
requires flag = 1), yet with historical-inclusion disabled the handler still
emits it — the code's skip test is `flag == 0`, not `flag != 1`. -/
theorem C1_cex_flag2_emitted :
    ((notification_handler cfgText 0 .data
        [0,0,0,0,0,0, 0,0, 0,0, 0,0, 0,0,0,0,0,0, 0,2] ⟨0, none⟩).2.any isEmit) = true := by
  with_unfolding_all rfl

/-- C1 (amended): a decoded DATA frame is emitted iff its flag byte is
nonzero or historical-inclusion is enabled; in particular a frame with
flag = 0 and inclusion disabled is dropped with nothing emitted, and an
`is_current` frame (flag = 1) is always emitted — but historical flag
values other than 0 are also emitted even when inclusion is disabled. -/
theorem C1_historical_filtering :
    ∀ (cfg : Config) (t : Nat) (b : List Nat) (d : DataFrame) (st : SensorState),
      decode_data_frame b = some d →
      ((notification_handler cfg t .data b st).2.any isEmit
          = (decide (d.flag ≠ 0) || cfg.include_history)) ∧
      (d.flag = 0 ∧ cfg.include_history = false →
        (notification_handler cfg t .data b st).2 = [.logOnly]) := by
  intro cfg t b d st hd
  constructor
  · simp only [notification_handler, hd]
    by_cases hc : d.flag = 0 ∧ cfg.include_history = false
    · rw [if_pos hc]
      simp [isEmit, hc.1, hc.2]
    · rw [if_neg hc]
      have hr : (decide (d.flag ≠ 0) || cfg.include_history) = true := by
        rcases not_and_or.mp hc with h | h
        · simp [h]
        · simp only [Bool.not_eq_false] at h
          simp [h]
      rw [hr]
      by_cases hj : cfg.output_format = "json" <;> simp [hj, isEmit]
  · intro hc
    simp only [notification_handler, hd]
    rw [if_pos hc]

theorem C1_witness :
    (notification_handler cfgText 0 .data frameCur ⟨0, none⟩).2.any isEmit = true := by
  have h := C1_historical_filtering cfgText 0 frameCur frameCurDecoded ⟨0, none⟩
    (by with_unfolding_all rfl)
  rw [h.1]
  decide

/-! ## C8 — unconditional liveness update, decode failures never fatal -/

/-- C8: for every notification — on any channel including an unrecognized
one, with any byte content — the handler records the liveness time `t`
unconditionally, and every decode failure (and the META/SHORT/unknown
paths) produces at most a log line: the handler returns normally with no
emission and, on a failed STATUS decode, no state change beyond the clock. -/
theorem C8_handler_liveness_and_failures :
    ∀ (cfg : Config) (t : Nat) (ch : Channel) (b : List Nat) (st : SensorState),
      ((notification_handler cfg t ch b st).1.last_data_time = some t) ∧
      (ch = .data → decode_data_frame b = none →
        (notification_handler cfg t ch b st).2 = [.logOnly]) ∧
      (ch = .status → decode_status_battery b = none →
        (notification_handler cfg t ch b st).2 = [.logOnly] ∧
        (notification_handler cfg t ch b st).1.latest_battery = st.latest_battery) ∧
      (ch = .meta → (notification_handler cfg t ch b st).2 = [.logOnly]) ∧
      (ch = .short → (notification_handler cfg t ch b st).2 = [.logOnly]) ∧
      (ch = .unknown → (notification_handler cfg t ch b st).2 = []) := by
  intro cfg t ch b st
  refine ⟨?_, ?_, ?_, ?_, ?_, ?_⟩
  · cases ch
    case status =>
      cases hd : decode_status_battery b <;> simp [notification_handler, hd]
    case short => rfl
    case meta => rfl
    case data =>
      cases hd : decode_data_frame b
      case none => simp [notification_handler, hd]
      case some d =>
        simp only [notification_handler, hd]
        split <;> rfl
    case unknown => rfl
  · intro hch hd
    subst hch
    simp [notification_handler, hd]
  · intro hch hd
    subst hch
    exact ⟨by simp [notification_handler, hd], by simp [notification_handler, hd]⟩
  · intro hch
    subst hch
    rfl
  · intro hch
    subst hch
    rfl
  · intro hch
    subst hch
    rfl

theorem C8_witness :
    (notification_handler cfgText 7 .data [1, 2] ⟨5, none⟩).1.last_data_time = some 7 ∧
    (notification_handler cfgText 7 .data [1, 2] ⟨5, none⟩).2 = [.logOnly] ∧
    (notification_handler cfgText 8 .unknown [9, 9, 9] ⟨5, none⟩).1.last_data_time =
      some 8 :=
  ⟨(C8_handler_liveness_and_failures cfgText 7 .data [1, 2] ⟨5, none⟩).1,
   (C8_handler_liveness_and_failures cfgText 7 .data [1, 2] ⟨5, none⟩).2.1 rfl (by decide),
   (C8_handler_liveness_and_failures cfgText 8 .unknown [9, 9, 9] ⟨5, none⟩).1⟩

/-! ## C2 — battery state across sessions (corrected) -/

/-- How one handler call changes the stored battery: only a STATUS frame of
length ≥ 1 overwrites it. -/
theorem handler_battery (cfg : Config) (t : Nat) (ch : Channel) (b : List Nat)
    (st : SensorState) :
    (notification_handler cfg t ch b st).1.latest_battery =
      if ch = .status ∧ 1 ≤ b.length then b.getD 0 0 else st.latest_battery := by
  cases ch
  case status =>
    by_cases hb : 1 ≤ b.length
    · have hd : decode_status_battery b = some ⟨b.getD 0 0, b.getD 0 0⟩ := by
        simp only [decode_status_battery]
        rw [if_neg (by omega)]
      simp [notification_handler, hd, hb]
    · have hd : decode_status_battery b = none := by
        simp only [decode_status_battery]
        rw [if_pos (by omega)]
      simp [notification_handler, hd, hb]
  case data =>
    rw [if_neg (by simp)]
    cases hd : decode_data_frame b
    case none => simp [notification_handler, hd]
    case some d =>
      simp only [notification_handler, hd]
      split <;> rfl
  case meta => simp [notification_handler]
  case short => simp [notification_handler]
  case unknown => simp [notification_handler]

/-- Counterexample to C2 as stated: starting from process start (battery 0),
session one sees STATUS `[42]`; a new connection is then established
(`connect 10`) and a current DATA frame arrives *before any STATUS frame of
the new session* — yet the emitted reading carries battery 42 from the
previous session.  `latest_battery` is a module-level global that no
per-connection code resets. -/
theorem C2_cex_battery_persists :
    (runTrace cfgJson ⟨0, none⟩
        [.connect 0, .notify 1 .status [42], .connect 10, .notify 11 .data frameCur]).2 =
      [.logOnly, .emitJson (some ⟨0, 2000, 0, 0, 0, 0, 0⟩) 0 0 0 0 42] := by
  with_unfolding_all rfl

/-- C2 (amended): the battery state is process-global, not per-session: at
every point it equals the first byte of the last valid STATUS frame seen
since *process start* (its initial value 0 before the first one), and a new
connection resets only the liveness clock, never the battery. -/
theorem C2_battery_process_global :
    (∀ (cfg : Config) (st : SensorState) (evs : List SessionEv),
      (runTrace cfg st evs).1.latest_battery =
        spec_last_status_battery st.latest_battery evs) ∧
    (∀ (cfg : Config) (st : SensorState) (t : Nat) (evs : List SessionEv),
      runTrace cfg st (.connect t :: evs) =
        runTrace cfg { st with last_data_time := some t } evs) := by
  constructor
  · intro cfg st evs
    induction evs generalizing st
    case nil => rfl
    case cons ev rest ih =>
      cases ev
      case connect t => exact ih _
      case notify t ch b =>
        show (runTrace cfg (notification_handler cfg t ch b st).1 rest).1.latest_battery = _
        rw [ih, handler_battery]
        cases ch
        case status =>
          by_cases hb : 1 ≤ b.length
          · have h1 : ¬b.length < 1 := by omega
            simp [spec_last_status_battery, hb, h1]
          · have h1 : b.length < 1 := by omega
            simp [spec_last_status_battery, hb, h1]
        case data => simp [spec_last_status_battery]
        case meta => simp [spec_last_status_battery]
        case short => simp [spec_last_status_battery]
        case unknown => simp [spec_last_status_battery]
  · intro cfg st t evs
    rfl

/-! ## C5 — silence timeout, retry, and terminal dispositions (corrected) -/

/-- With no MQTT-fatal flag and no frames, the listening loop is still
running while at most `timeout + 1` polls have elapsed. -/
theorem listening_loop_quiet_none :
    ∀ (n now last timeout : Nat), last ≤ now → n + (now - last) ≤ timeout + 1 →
      listening_loop timeout now last (List.replicate n ⟨false, false⟩) = none := by
  intro n
  induction n with
  | zero => intro now last timeout _ _; rfl
  | succ n ih =>
    intro now last timeout hle hn
    simp only [List.replicate, listening_loop]
    rw [if_neg (by simp), if_neg (by omega)]
    exact ih (now + 1) last timeout (by omega) (by omega)

/-- With no MQTT-fatal flag and no frames, the listening loop exits with the
silence disposition on the poll that first sees `now - last > timeout`. -/
theorem listening_loop_quiet_silence :
    ∀ (k now last timeout : Nat), last ≤ now → now - last + k = timeout + 1 →
      listening_loop timeout now last (List.replicate (k + 1) ⟨false, false⟩) =
        some .silenceBreak := by
  intro k
  induction k with
  | zero =>
    intro now last timeout hle hk
    simp only [List.replicate, listening_loop]
    rw [if_neg (by simp), if_pos (by omega)]
  | succ k ih =>
    intro now last timeout hle hk
    simp only [List.replicate, listening_loop]
    rw [if_neg (by simp), if_neg (by omega)]
    exact ih (now + 1) last timeout (by omega) (by omega)

/-- Counterexample to C5 as stated: a sink-fatal condition detected while
Listening does **not** terminate the supervisor loop immediately.  The
session returns normally, the supervisor sleeps the retry delay, and a
further call into `monitor_device_connection` starts (its entry guard then
exits the process): two session starts, a retry sleep after the fatal
condition — not immediate termination with no further sessions. -/
theorem C5_cex_sink_fatal_retries :
    monitor_device false
        [⟨.loopBreak .fatalBreak, true⟩, ⟨.loopBreak .silenceBreak, false⟩] =
      [.sessionStart, .retrySleep retry_delay, .sessionStart, .terminated] ∧
    countStarts (monitor_device false
        [⟨.loopBreak .fatalBreak, true⟩, ⟨.loopBreak .silenceBreak, false⟩]) = 2 := by
  decide

/-- C5 (amended): if no frame arrives for more than `response_timeout`
seconds of 1-second polls after entering Listening, the loop exits with the
silence disposition (never earlier), and the supervisor then runs exactly
one retry sleep followed by exactly one new session; explicit cancellation
terminates the loop immediately with no further sessions; a sink-fatal
condition seen during Listening ends the session normally and the
supervisor still sleeps and starts one further session attempt, which
terminates at its entry guard. -/
theorem C5_silence_and_dispositions :
    (∀ timeout t0 n : Nat, n ≤ timeout + 1 →
      listening_loop timeout t0 t0 (List.replicate n ⟨false, false⟩) = none) ∧
    (∀ timeout t0 : Nat,
      listening_loop timeout t0 t0 (List.replicate (timeout + 2) ⟨false, false⟩) =
        some .silenceBreak) ∧
    (∀ (rest : List SessSpec) (sf : Bool),
      monitor_device false (⟨.loopBreak .silenceBreak, sf⟩ :: rest) =
        .sessionStart :: .retrySleep retry_delay :: monitor_device sf rest) ∧
    (∀ (s : SessSpec) (rest : List SessSpec),
      monitor_device true (s :: rest) = [.sessionStart, .terminated]) ∧
    (∀ (rest : List SessSpec) (sf : Bool),
      monitor_device false (⟨.raised .cancelled, sf⟩ :: rest) =
        [.sessionStart, .terminated]) ∧
    (∀ rest : List SessSpec,
      monitor_device false (⟨.loopBreak .fatalBreak, true⟩ :: rest) =
        .sessionStart :: .retrySleep retry_delay :: monitor_device true rest) := by
  refine ⟨?_, ?_, ?_, ?_, ?_, ?_⟩
  · intro timeout t0 n hn
    exact listening_loop_quiet_none n t0 t0 timeout (Nat.le_refl t0) (by omega)
  · intro timeout t0
    exact listening_loop_quiet_silence (timeout + 1) t0 t0 timeout (Nat.le_refl t0) (by omega)
  · intro rest sf
    rfl
  · intro s rest
    rfl
  · intro rest sf
    rfl
  · intro rest
    rfl

theorem C5_witness :
    listening_loop 3 100 100 (List.replicate 4 ⟨false, false⟩) = none ∧
    listening_loop 3 100 100 (List.replicate 5 ⟨false, false⟩) = some .silenceBreak ∧
    monitor_device false [⟨.loopBreak .silenceBreak, false⟩] =
      [.sessionStart, .retrySleep retry_delay] :=
  ⟨C5_silence_and_dispositions.1 3 100 4 (by decide),
   C5_silence_and_dispositions.2.1 3 100,
   C5_silence_and_dispositions.2.2.1 [] false⟩

/-! ## C6 — the handshake sequence and its packet layouts -/

/-- C6: the handshake subscribes the four notification channels first and
then performs the three confirmed writes in strict order — the 18-byte
authentication packet (`00 01`, the nonce's six ASCII digits, ten zero
bytes), the single start byte 0x03, and the 11-byte time-sync packet (six
wall-clock bytes with the out-of-range year offset replaced by 0, then the
constant tail `00 06 40 00 1e`).  The ASCII digits decode back to the nonce. -/
theorem C6_handshake_sequence :
    ∀ nonce : Nat, nonce < 1000000 → ∀ now : PyDateTime,
      initialize_device nonce now =
        [.startNotify .status, .startNotify .short, .startNotify .meta, .startNotify .data,
         .writeGatt .key (build_auth_key nonce) true,
         .writeGatt .cmd CMD_START true,
         .writeGatt .key (build_time_sync now) true] ∧
      CMD_START = [0x03] ∧
      (build_auth_key nonce).length = 18 ∧
      (build_auth_key nonce).take 2 = [0x00, 0x01] ∧
      ((build_auth_key nonce).drop 2).take 6 = asciiDigits6 nonce ∧
      (asciiDigits6 nonce).foldl (fun a d => a * 10 + (d - 48)) 0 = nonce ∧
      (∀ x ∈ asciiDigits6 nonce, 48 ≤ x ∧ x ≤ 57) ∧
      (build_auth_key nonce).drop 8 = List.replicate 10 0 ∧
      (build_time_sync now).length = 11 ∧
      (build_time_sync now).drop 6 = [0x00, 0x06, 0x40, 0x00, 0x1e] ∧
      (now.month < 256 → now.day < 256 → now.hour < 256 → now.minute < 256 →
        now.second < 256 →
        (build_time_sync now).take 6 =
          [if 2000 ≤ now.year ∧ now.year ≤ 2255 then (now.year - 2000).toNat else 0,
           now.month, now.day, now.hour, now.minute, now.second]) := by
  intro nonce hn now
  refine ⟨rfl, rfl, by simp [build_auth_key, asciiDigits6], rfl, rfl, ?_, ?_, rfl,
    by simp [build_time_sync], rfl, ?_⟩
  · simp only [asciiDigits6, List.foldl]
    omega
  · intro x hx
    simp only [asciiDigits6, List.mem_cons, List.not_mem_nil, or_false] at hx
    rcases hx with h | h | h | h | h | h <;> subst h <;> omega
  · intro h1 h2 h3 h4 h5
    simp only [build_time_sync]
    rw [List.take_left' (by rfl)]
    have hm : now.month % 256 = now.month := Nat.mod_eq_of_lt h1
    have hd : now.day % 256 = now.day := Nat.mod_eq_of_lt h2
    have hh : now.hour % 256 = now.hour := Nat.mod_eq_of_lt h3
    have hmin : now.minute % 256 = now.minute := Nat.mod_eq_of_lt h4
    have hs : now.second % 256 = now.second := Nat.mod_eq_of_lt h5
    simp only [hm, hd, hh, hmin, hs, List.cons.injEq, and_true]
    by_cases hy : 2000 ≤ now.year ∧ now.year ≤ 2255
    · rw [if_pos (by omega : (0:ℤ) ≤ now.year - 2000 ∧ now.year - 2000 ≤ 255), if_pos hy]
      omega
    · rw [if_neg (by omega), if_neg hy]
      rfl

/-- The sample wall-clock time 2025-06-15 10:30:45. -/
def nowSample : PyDateTime := ⟨2025, 6, 15, 10, 30, 45⟩

theorem C6_witness :
    initialize_device 123456 nowSample =
      [.startNotify .status, .startNotify .short, .startNotify .meta, .startNotify .data,
       .writeGatt .key (build_auth_key 123456) true,
       .writeGatt .cmd CMD_START true,
       .writeGatt .key (build_time_sync nowSample) true] ∧
    (asciiDigits6 123456).foldl (fun a d => a * 10 + (d - 48)) 0 = 123456 ∧
    (build_time_sync nowSample).take 6 = [25, 6, 15, 10, 30, 45] := by
  have h := C6_handshake_sequence 123456 (by decide) nowSample
  refine ⟨h.1, h.2.2.2.2.2.1, ?_⟩
  have ht := h.2.2.2.2.2.2.2.2.2.2 (by decide) (by decide) (by decide) (by decide)
    (by decide)
  rw [ht]
  decide
